import Mathlib

/-!
Verification of the authsec-ai/authz-sdk Python SDK.

The development shallowly embeds the two facade classes of the SDK,
`AuthSecClient` (src/authsec/minimal.py) and `AdminHelper`
(src/authsec/admin_helper.py), as Lean structures, and each public method as
a pure function.  Network effects are made explicit: a method that performs
an HTTP call takes the transport outcome (`HttpOutcome`) as an argument and
returns, besides its result, the list of `HttpRequest` values it issued.
Python exceptions are modelled by `Except PyError`.

Modelling conventions:
- JSON payloads are the inductive `Json`; Python dict literals become
  association lists in insertion order.
- Python truthiness (`if not self.token`, `if description`, ...) is modelled
  exactly: `None` and the empty string/list/dict are falsy.
- `requests` exceptions: both non-2xx responses (after `raise_for_status`)
  and connection-level failures are `requests.RequestException`; they are
  folded into the single transport outcome `HttpOutcome.fail msg`, since no
  claim distinguishes them beyond the message text.  A 2xx response with an
  unparseable/empty body is `HttpOutcome.ok none` (`r.json()` then raises
  `requests.exceptions.JSONDecodeError`, a `RequestException` subclass).
- Dynamic-typing errors that Python would raise on unexpected response
  shapes (`AttributeError` from `.get` on a non-dict, `KeyError` from
  subscripting, `TypeError` from `len` on a non-sized value) are modelled by
  the corresponding `PyError` constructors.
- Timeouts are carried opaquely and never computed with; they are modelled
  as `Rat` (Python `float`, default 5.0) resp. `Int` (Python `int`).
-/

namespace Authsec

/-- JSON values as produced by `response.json()`. -/
inductive Json where
  | null
  | bool (b : Bool)
  | num (n : Int)
  | str (s : String)
  | arr (elems : List Json)
  | obj (fields : List (String × Json))

/-- Python exception values, by class; each carries its message
(for `KeyError`, the missing key). -/
inductive PyError where
  | valueError (msg : String)
  | runtimeError (msg : String)
  | keyError (key : String)
  | attributeError (msg : String)
  | typeError (msg : String)
  | requestException (msg : String)
  | adminSDKError (msg : String)
  | permissionError (msg : String)
  | roleBindingError (msg : String)
  | scopeError (msg : String)
  | secretError (msg : String)

/-- The message carried by an exception (for `KeyError`, Python would render
the repr of the key; the key itself is kept). -/
def PyError.message : PyError → String
  | .valueError m => m
  | .runtimeError m => m
  | .keyError m => m
  | .attributeError m => m
  | .typeError m => m
  | .requestException m => m
  | .adminSDKError m => m
  | .permissionError m => m
  | .roleBindingError m => m
  | .scopeError m => m
  | .secretError m => m

/-- `isinstance(e, AdminSDKError)`: the admin SDK error class and its four
subclasses defined in src/authsec/admin_helper.py. -/
def PyError.isAdminSDKError : PyError → Bool
  | .adminSDKError _ => true
  | .permissionError _ => true
  | .roleBindingError _ => true
  | .scopeError _ => true
  | .secretError _ => true
  | _ => false

/-- First-match lookup in a JSON object's field list (Python dict access;
keys are unique in every dict the SDK builds or reads). -/
def lookupField (fields : List (String × Json)) (key : String) : Option Json :=
  match fields with
  | [] => none
  | (k, v) :: rest => if k = key then some v else lookupField rest key

/-- Python `d.get(key, default)`: defined on dicts, `AttributeError` on any
other value. -/
def Json.getd (j : Json) (key : String) (dflt : Json) : Except PyError Json :=
  match j with
  | .obj fields => .ok ((lookupField fields key).getD dflt)
  | _ => .error (.attributeError "get")

/-- Python truthiness of a JSON value. -/
def Json.truthy : Json → Bool
  | .null => false
  | .bool b => b
  | .num n => n != 0
  | .str s => s != ""
  | .arr elems => !elems.isEmpty
  | .obj fields => !fields.isEmpty

/-- Python `s.lower()` (ASCII case folding, which is all the SDK relies
on). -/
def pyLower (s : String) : String :=
  String.mk (s.data.map Char.toLower)

/-- Python `s.startswith(pre)`. -/
def pyStartsWith (s pre : String) : Bool :=
  pre.data.isPrefixOf s.data

/-- Python `s.rstrip("/")`. -/
def rstripSlash (s : String) : String :=
  String.mk (s.data.reverse.dropWhile (· == '/')).reverse

/-- Python `s.lstrip("/")`. -/
def lstripSlash (s : String) : String :=
  String.mk (s.data.dropWhile (· == '/'))

/-- Truthiness of an optional string argument (`None` and `""` are falsy). -/
def truthyOptStr : Option String → Bool
  | none => false
  | some s => s != ""

/-- Python `s or "*"` on an optional string: the wildcard when falsy. -/
def orStar : Option String → String
  | none => "*"
  | some s => if s = "" then "*" else s

/-- One HTTP request as handed to the `requests` library: method, full URL,
optional JSON body, query parameters, and headers. -/
structure HttpRequest where
  method : String
  url : String
  body : Option Json
  params : List (String × String)
  headers : List (String × String)

/-- Outcome of one transport call: a 2xx response with its parsed JSON body
(`none` when the body is empty or unparseable), or a raised
`requests.RequestException` (non-2xx after `raise_for_status`, timeout,
connection error). -/
inductive HttpOutcome where
  | ok (body : Option Json)
  | fail (msg : String)

/-! ## AuthSecClient (src/authsec/minimal.py) -/

/-- The state of an `AuthSecClient` instance: the fields assigned by
`AuthSecClient.__init__`. -/
structure AuthSecClient where
  base_url : String
  uflow_base_url : String
  timeout : Rat
  legacy_proxy_mode : Bool
  endpoint_type : String
  token : Option String
  _claims_cache : Option Json

/-- `AuthSecClient.__init__`: strips trailing slashes from the base URLs
(a falsy `uflow_base_url` defaults to the stripped `base_url`), lowercases
`endpoint_type`, and raises `ValueError` unless the lowercased value is
`admin` or `enduser`. -/
def AuthSecClient.init (base_url : String) (timeout : Rat)
    (legacy_proxy_mode : Bool) (uflow_base_url : Option String)
    (token : Option String) (endpoint_type : String) :
    Except PyError AuthSecClient :=
  let b := rstripSlash base_url
  let et := pyLower endpoint_type
  if ["admin", "enduser"].contains et then
    .ok { base_url := b
          uflow_base_url :=
            match uflow_base_url with
            | some u => if u = "" then b else rstripSlash u
            | none => b
          timeout := timeout
          legacy_proxy_mode := legacy_proxy_mode
          endpoint_type := et
          token := token
          _claims_cache := none }
  else
    .error (.valueError "endpoint_type must be admin or enduser")

/-- `AuthSecClient._get_path`: legacy-proxy mode prepends `/authmgr` to
every endpoint; otherwise `/uflow/`-prefixed endpoints pass through, and the
remaining endpoints are rewritten onto the `/auth/admin` or `/auth/user`
prefix chosen by `use_admin` or the configured endpoint type. -/
def AuthSecClient._get_path (c : AuthSecClient) (endpoint : String)
    (use_admin : Bool) : String :=
  if c.legacy_proxy_mode then
    "/authmgr" ++ endpoint
  else
    if pyStartsWith endpoint "/uflow/" then
      endpoint
    else
      let current_endpoint_type := if use_admin then "admin" else c.endpoint_type
      let pfx := if current_endpoint_type = "admin" then "/auth/admin" else "/auth/user"
      if endpoint = "/auth/user/verifyToken" then pfx ++ "/verifyToken"
      else if endpoint = "/auth/user/generateToken" then pfx ++ "/generateToken"
      else if endpoint = "/auth/user/permissions/check" then pfx ++ "/permissions/check"
      else if pyStartsWith endpoint "/auth/user/" then
        endpoint.replace "/auth/user/" (pfx ++ "/")
      else if pyStartsWith endpoint "/auth/admin/" then
        endpoint.replace "/auth/admin/" (pfx ++ "/")
      else endpoint

/-- `AuthSecClient.set_token`: assigns the token and resets the claims
cache.  The second component is the list of HTTP requests issued (none). -/
def AuthSecClient.set_token (c : AuthSecClient) (token : String) :
    AuthSecClient × List HttpRequest :=
  ({ c with token := some token, _claims_cache := none }, [])

/-- `AuthSecClient.exchange_oidc` (POST `{base_url}/authmgr/oidcToken`): no
token precondition; `raise_for_status` failures propagate; on success reads
`r.json()["access_token"]` (a `KeyError` when the field is absent) and
stores it via `set_token`.  Returns the token together with the updated
client. -/
def AuthSecClient.exchange_oidc (c : AuthSecClient) (oidc_token : String)
    (net : HttpOutcome) :
    Except PyError (String × AuthSecClient) × List HttpRequest :=
  let url := c.base_url ++ "/authmgr/oidcToken"
  let req : HttpRequest :=
    { method := "POST", url := url
      body := some (.obj [("oidc_token", .str oidc_token)])
      params := [], headers := [] }
  let result : Except PyError (String × AuthSecClient) :=
    match net with
    | .fail msg => .error (.requestException msg)
    | .ok none => .error (.requestException "JSONDecodeError")
    | .ok (some j) =>
      match j with
      | .obj fields =>
        match lookupField fields "access_token" with
        | some (.str tok) => .ok (tok, (c.set_token tok).1)
        | some _ => .error (.typeError "access_token value is not a string")
        | none => .error (.keyError "access_token")
      | _ => .error (.typeError "response body is not an object")
  (result, [req])

/-- `AuthSecClient.request`: raises `RuntimeError` when the token is `None`
(an empty-string token passes this `is None` check); injects the bearer
header unless an `Authorization` header was supplied; prepends the base URL
to inputs that start with `http://` or `https://` and uses every other
input verbatim as the URL. -/
def AuthSecClient.request (c : AuthSecClient) (method url_or_path : String)
    (headers : List (String × String)) (net : HttpOutcome) :
    Except PyError (Option Json) × List HttpRequest :=
  match c.token with
  | none =>
    (.error (.runtimeError "No token set. Call login() or exchange_oidc() first."), [])
  | some t =>
    let hs :=
      if (headers.lookup "Authorization").isSome then headers
      else headers ++ [("Authorization", "Bearer " ++ t)]
    let url :=
      if pyStartsWith url_or_path "http://" || pyStartsWith url_or_path "https://" then
        rstripSlash c.base_url ++ "/" ++ lstripSlash url_or_path
      else
        url_or_path
    let req : HttpRequest :=
      { method := method, url := url, body := none, params := [], headers := hs }
    let result : Except PyError (Option Json) :=
      match net with
      | .ok body => .ok body
      | .fail msg => .error (.requestException msg)
    (result, [req])

/-- `AuthSecClient.check_permission` (GET
`{uflow_base_url}/uflow/user/permissions/check`): returns `False` for a
falsy token, `False` on any caught `requests.RequestException`, and
otherwise `r.json().get("allowed", False)`. -/
def AuthSecClient.check_permission (c : AuthSecClient)
    (resource action : String) (net : HttpOutcome) :
    Except PyError Json × List HttpRequest :=
  match c.token with
  | none => (.ok (.bool false), [])
  | some t =>
    if t = "" then (.ok (.bool false), [])
    else
      let url := c.uflow_base_url ++ "/uflow/user/permissions/check"
      let req : HttpRequest :=
        { method := "GET", url := url, body := none
          params := [("resource", resource), ("action", action)]
          headers := [("Authorization", "Bearer " ++ t)] }
      match net with
      | .fail _ => (.ok (.bool false), [req])
      | .ok none => (.ok (.bool false), [req])
      | .ok (some j) =>
        match j.getd "allowed" (.bool false) with
        | .ok v => (.ok v, [req])
        | .error e => (.error e, [req])

/-- `AuthSecClient.check_permission_scoped`: as `check_permission` but with
the additional query parameter `scope=scope_type:scope_id`. -/
def AuthSecClient.check_permission_scoped (c : AuthSecClient)
    (resource action scope_type scope_id : String) (net : HttpOutcome) :
    Except PyError Json × List HttpRequest :=
  match c.token with
  | none => (.ok (.bool false), [])
  | some t =>
    if t = "" then (.ok (.bool false), [])
    else
      let url := c.uflow_base_url ++ "/uflow/user/permissions/check"
      let req : HttpRequest :=
        { method := "GET", url := url, body := none
          params := [("resource", resource), ("action", action),
                     ("scope", scope_type ++ ":" ++ scope_id)]
          headers := [("Authorization", "Bearer " ++ t)] }
      match net with
      | .fail _ => (.ok (.bool false), [req])
      | .ok none => (.ok (.bool false), [req])
      | .ok (some j) =>
        match j.getd "allowed" (.bool false) with
        | .ok v => (.ok v, [req])
        | .error e => (.error e, [req])

/-- `AuthSecClient.list_permissions` (GET
`{uflow_base_url}/uflow/user/permissions`): returns `[]` for a falsy token,
`[]` on any caught `requests.RequestException`, and otherwise
`r.json().get("permissions", [])`. -/
def AuthSecClient.list_permissions (c : AuthSecClient) (net : HttpOutcome) :
    Except PyError Json × List HttpRequest :=
  match c.token with
  | none => (.ok (.arr []), [])
  | some t =>
    if t = "" then (.ok (.arr []), [])
    else
      let url := c.uflow_base_url ++ "/uflow/user/permissions"
      let req : HttpRequest :=
        { method := "GET", url := url, body := none, params := []
          headers := [("Authorization", "Bearer " ++ t)] }
      match net with
      | .fail _ => (.ok (.arr []), [req])
      | .ok none => (.ok (.arr []), [req])
      | .ok (some j) =>
        match j.getd "permissions" (.arr []) with
        | .ok v => (.ok v, [req])
        | .error e => (.error e, [req])

/-- `AuthSecClient.assign_role` (POST to `/uflow/admin/bindings` or
`/uflow/user/rbac/bindings` on `base_url`): raises `RuntimeError` on a falsy
token before building any request; the payload carries a `scope` object
(missing components defaulting to `"*"`) only when at least one scope
component is truthy, and `conditions` only when truthy; any caught
`requests.RequestException` is re-raised as `RuntimeError`. -/
def AuthSecClient.assign_role (c : AuthSecClient) (user_id role_id : String)
    (scope_type scope_id : Option String) (conditions : Option Json)
    (admin : Bool) (net : HttpOutcome) :
    Except PyError Json × List HttpRequest :=
  match c.token with
  | none =>
    (.error (.runtimeError "No token set. Call login() or exchange_oidc() first."), [])
  | some t =>
    if t = "" then
      (.error (.runtimeError "No token set. Call login() or exchange_oidc() first."), [])
    else
      let endpoint := if admin then "/uflow/admin/bindings" else "/uflow/user/rbac/bindings"
      let url := c.base_url ++ endpoint
      let payload : Json := .obj
        ([("user_id", .str user_id), ("role_id", .str role_id)]
          ++ (if truthyOptStr scope_type || truthyOptStr scope_id then
                [("scope", Json.obj
                    [("type", .str (orStar scope_type)),
                     ("id", .str (orStar scope_id))])]
              else [])
          ++ (match conditions with
              | some cond => if cond.truthy then [("conditions", cond)] else []
              | none => []))
      let req : HttpRequest :=
        { method := "POST", url := url, body := some payload, params := []
          headers := [("Authorization", "Bearer " ++ t)] }
      let result : Except PyError Json :=
        match net with
        | .fail msg => .error (.runtimeError ("Failed to assign role: " ++ msg))
        | .ok none => .error (.runtimeError "Failed to assign role: JSONDecodeError")
        | .ok (some j) => .ok j
      (result, [req])

/-- `AuthSecClient.remove_role_binding` (DELETE on the binding URL): raises
`RuntimeError` on a falsy token before building any request; returns `True`
on success; any caught `requests.RequestException` is re-raised as
`RuntimeError`. -/
def AuthSecClient.remove_role_binding (c : AuthSecClient)
    (binding_id : String) (admin : Bool) (net : HttpOutcome) :
    Except PyError Json × List HttpRequest :=
  match c.token with
  | none =>
    (.error (.runtimeError "No token set. Call login() or exchange_oidc() first."), [])
  | some t =>
    if t = "" then
      (.error (.runtimeError "No token set. Call login() or exchange_oidc() first."), [])
    else
      let endpoint := if admin then "/uflow/admin/bindings" else "/uflow/user/rbac/bindings"
      let url := c.base_url ++ endpoint ++ "/" ++ binding_id
      let req : HttpRequest :=
        { method := "DELETE", url := url, body := none, params := []
          headers := [("Authorization", "Bearer " ++ t)] }
      let result : Except PyError Json :=
        match net with
        | .fail msg => .error (.runtimeError ("Failed to remove role binding: " ++ msg))
        | .ok _ => .ok (.bool true)
      (result, [req])

/-- The methods defined on the `AuthSecClient` class body in
src/authsec/minimal.py.  `login` is not among them: the comment at lines
280-282 records that it was removed in favour of pre-authenticated tokens
(constructor `token` parameter) and `exchange_oidc`. -/
def AuthSecClient.methods : List String :=
  ["__init__", "_get_path", "register", "verify_registration",
   "register_enduser", "verify_enduser_registration", "exchange_oidc",
   "set_token", "request", "check_permission", "check_permission_scoped",
   "list_permissions", "assign_role", "remove_role_binding",
   "list_role_bindings"]

/-! ## AdminHelper (src/authsec/admin_helper.py) -/

/-- The state of an `AdminHelper` instance.  The source field
`endpoint_prefix` is named `endpointPrefix` here. -/
structure AdminHelper where
  token : String
  base_url : String
  timeout : Int
  debug : Bool
  endpoint_type : String
  endpointPrefix : String
  headers : List (String × String)

/-- `AdminHelper.__init__`: raises `ValueError` unless `endpoint_type` is
exactly `admin` or `enduser` (no case normalization, unlike
`AuthSecClient`); `enduser` selects the prefix `/uflow/user/rbac`, `admin`
selects `/uflow/admin` (built as `"/uflow/" + endpoint_type`). -/
def AdminHelper.init (token base_url : String) (timeout : Int) (debug : Bool)
    (endpoint_type : String) : Except PyError AdminHelper :=
  if ["admin", "enduser"].contains endpoint_type then
    .ok { token := token
          base_url := rstripSlash base_url
          timeout := timeout
          debug := debug
          endpoint_type := endpoint_type
          endpointPrefix :=
            if endpoint_type = "enduser" then "/uflow/user/rbac"
            else "/uflow/" ++ endpoint_type
          headers := [("Authorization", "Bearer " ++ token),
                      ("Content-Type", "application/json")] }
  else
    .error (.valueError ("endpoint_type must be admin or enduser, got " ++ endpoint_type))

/-- `AdminHelper._make_request`: URL is `base_url + endpoint`; an empty
2xx body yields `{}`; any `requests` exception (HTTP error or connection
failure) is re-raised as `AdminSDKError` whose message starts with
`"{method} {endpoint} failed: "`. -/
def AdminHelper._make_request (h : AdminHelper) (method endpoint : String)
    (data : Option Json) (params : List (String × String))
    (net : HttpOutcome) : Except PyError Json × List HttpRequest :=
  let req : HttpRequest :=
    { method := method, url := h.base_url ++ endpoint
      body := data, params := params, headers := h.headers }
  let result : Except PyError Json :=
    match net with
    | .ok none => .ok (.obj [])
    | .ok (some j) => .ok j
    | .fail msg =>
      .error (.adminSDKError (method ++ " " ++ endpoint ++ " failed: " ++ msg))
  (result, [req])

/-- `except AdminSDKError as e: raise mk(ctx + str(e))`, the error-wrapping
pattern of every `AdminHelper` public method. -/
def wrapAdminError (mk : String → PyError) (ctx : String) :
    Except PyError Json → Except PyError Json
  | .error e => if e.isAdminSDKError then .error (mk (ctx ++ e.message)) else .error e
  | r => r

/-- `if value: data[key] = value` for an optional string field. -/
def optStrField (key : String) : Option String → List (String × Json)
  | none => []
  | some s => if s = "" then [] else [(key, .str s)]

/-- `if value: data[key] = value` for an optional list-of-strings field. -/
def optListField (key : String) : Option (List String) → List (String × Json)
  | none => []
  | some l => if l.isEmpty then [] else [(key, .arr (l.map Json.str))]

/-- `if value: params[key] = value` for an optional query parameter. -/
def optParam (key : String) : Option String → List (String × String)
  | none => []
  | some s => if s = "" then [] else [(key, s)]

/-- `AdminHelper.create_permission`: POST `{prefix}/permissions` with body
`{resource, action, description?}`; wraps failures in `PermissionError`. -/
def AdminHelper.create_permission (h : AdminHelper) (resource action : String)
    (description : Option String) (net : HttpOutcome) :
    Except PyError Json × List HttpRequest :=
  let data : Json := .obj
    ([("resource", .str resource), ("action", .str action)]
      ++ optStrField "description" description)
  let (res, reqs) :=
    h._make_request "POST" ( h.endpointPrefix ++ "/permissions") (some data) [] net
  (wrapAdminError PyError.permissionError "Failed to create permission: " res, reqs)

/-- `AdminHelper.list_permissions`: GET `{prefix}/permissions` with an
optional `resource` filter; a list response is returned as is, a dict
response is read at `"permissions"` (defaulting to `[]`); failures are
wrapped in `PermissionError`. -/
def AdminHelper.list_permissions (h : AdminHelper) (resource : Option String)
    (net : HttpOutcome) : Except PyError Json × List HttpRequest :=
  let (res, reqs) :=
    h._make_request "GET" ( h.endpointPrefix ++ "/permissions") none
      (optParam "resource" resource) net
  let res' :=
    match res with
    | .ok (.arr elems) => .ok (.arr elems)
    | .ok other => other.getd "permissions" (.arr [])
    | .error e => .error e
  (wrapAdminError PyError.permissionError "Failed to list permissions: " res', reqs)

/-- `AdminHelper.create_role`: POST `{prefix}/roles` with body
`{name, description?, permission_ids?, permission_strings?}`; failures are
wrapped in `RoleBindingError`. -/
def AdminHelper.create_role (h : AdminHelper) (name : String)
    (description : Option String)
    (permission_ids permission_strings : Option (List String))
    (net : HttpOutcome) : Except PyError Json × List HttpRequest :=
  let data : Json := .obj
    ([("name", .str name)]
      ++ optStrField "description" description
      ++ optListField "permission_ids" permission_ids
      ++ optListField "permission_strings" permission_strings)
  let (res, reqs) :=
    h._make_request "POST" ( h.endpointPrefix ++ "/roles") (some data) [] net
  (wrapAdminError PyError.roleBindingError "Failed to create role: " res, reqs)

/-- `AdminHelper.list_roles`: GET `{prefix}/roles` with optional filters;
a non-list response becomes `[]`; failures are wrapped in
`RoleBindingError`. -/
def AdminHelper.list_roles (h : AdminHelper)
    (resource role_id user_id : Option String) (net : HttpOutcome) :
    Except PyError Json × List HttpRequest :=
  let params := optParam "resource" resource ++ optParam "role_id" role_id
    ++ optParam "user_id" user_id
  let (res, reqs) := h._make_request "GET" ( h.endpointPrefix ++ "/roles") none params net
  let res' :=
    match res with
    | .ok (.arr elems) => .ok (Json.arr elems)
    | .ok _ => .ok (Json.arr [])
    | .error e => .error e
  (wrapAdminError PyError.roleBindingError "Failed to list roles: " res', reqs)

/-- `AdminHelper.get_role`: GET `{prefix}/roles?role_id=...`; a list
response is used directly, a dict response is read at `"roles"` (default
`[]`); an empty list raises `RoleBindingError("Role not found: ...")`,
which the surrounding handler (catching `AdminSDKError`, of which
`RoleBindingError` is a subclass) re-wraps as
`RoleBindingError("Failed to get role: ...")`; a non-empty list yields its
first element.  A `"roles"` value that is neither absent nor a list would
make Python call `len` on it; that dynamic outcome is conflated into
`TypeError` (no claim reaches it). -/
def AdminHelper.get_role (h : AdminHelper) (role_id : String)
    (net : HttpOutcome) : Except PyError Json × List HttpRequest :=
  let (res, reqs) :=
    h._make_request "GET" ( h.endpointPrefix ++ "/roles") none
      [("role_id", role_id)] net
  let inner : Except PyError Json :=
    match res with
    | .error e => .error e
    | .ok (.arr []) => .error (.roleBindingError ("Role not found: " ++ role_id))
    | .ok (.arr (x :: _)) => .ok x
    | .ok (.obj fields) =>
      match lookupField fields "roles" with
      | none => .error (.roleBindingError ("Role not found: " ++ role_id))
      | some (.arr []) => .error (.roleBindingError ("Role not found: " ++ role_id))
      | some (.arr (x :: _)) => .ok x
      | some _ => .error (.typeError "roles value is not a list")
    | .ok _ => .error (.attributeError "get")
  (wrapAdminError PyError.roleBindingError "Failed to get role: " inner, reqs)

/-- `AdminHelper.update_role`: PUT `{prefix}/roles/{role_id}`; only fields
that are not `None` are sent (`is not None`, not truthiness); failures are
wrapped in `RoleBindingError`. -/
def AdminHelper.update_role (h : AdminHelper) (role_id : String)
    (name description : Option String)
    (permission_ids permission_strings : Option (List String))
    (net : HttpOutcome) : Except PyError Json × List HttpRequest :=
  let data : Json := .obj
    ((match name with | some n => [("name", Json.str n)] | none => [])
      ++ (match description with | some d => [("description", Json.str d)] | none => [])
      ++ (match permission_ids with
          | some l => [("permission_ids", Json.arr (l.map Json.str))] | none => [])
      ++ (match permission_strings with
          | some l => [("permission_strings", Json.arr (l.map Json.str))] | none => []))
  let (res, reqs) :=
    h._make_request "PUT" ( h.endpointPrefix ++ "/roles/" ++ role_id) (some data) [] net
  (wrapAdminError PyError.roleBindingError "Failed to update role: " res, reqs)

/-- `AdminHelper.delete_role`: DELETE `{prefix}/roles/{role_id}`; returns
`True` on success; failures are wrapped in `RoleBindingError`. -/
def AdminHelper.delete_role (h : AdminHelper) (role_id : String)
    (net : HttpOutcome) : Except PyError Json × List HttpRequest :=
  let (res, reqs) :=
    h._make_request "DELETE" ( h.endpointPrefix ++ "/roles/" ++ role_id) none [] net
  let res' := match res with | .ok _ => .ok (Json.bool true) | .error e => .error e
  (wrapAdminError PyError.roleBindingError "Failed to delete role: " res', reqs)

/-- `AdminHelper.create_role_binding`: POST `{prefix}/bindings` with body
`{user_id, role_id, scope?, conditions?}`; the `scope` object is present
only when at least one scope component is truthy, each falsy component
defaulting to `"*"`; failures are wrapped in `RoleBindingError`. -/
def AdminHelper.create_role_binding (h : AdminHelper)
    (user_id role_id : String) (scope_type scope_id : Option String)
    (conditions : Option Json) (net : HttpOutcome) :
    Except PyError Json × List HttpRequest :=
  let data : Json := .obj
    ([("user_id", .str user_id), ("role_id", .str role_id)]
      ++ (if truthyOptStr scope_type || truthyOptStr scope_id then
            [("scope", Json.obj
                [("type", .str (orStar scope_type)),
                 ("id", .str (orStar scope_id))])]
          else [])
      ++ (match conditions with
          | some cond => if cond.truthy then [("conditions", cond)] else []
          | none => []))
  let (res, reqs) :=
    h._make_request "POST" ( h.endpointPrefix ++ "/bindings") (some data) [] net
  (wrapAdminError PyError.roleBindingError "Failed to create role binding: " res, reqs)

/-- `AdminHelper.remove_role_binding`: DELETE `{prefix}/bindings/{id}`;
returns `True` on success; failures are wrapped in `RoleBindingError`. -/
def AdminHelper.remove_role_binding (h : AdminHelper) (binding_id : String)
    (net : HttpOutcome) : Except PyError Json × List HttpRequest :=
  let (res, reqs) :=
    h._make_request "DELETE" ( h.endpointPrefix ++ "/bindings/" ++ binding_id) none [] net
  let res' := match res with | .ok _ => .ok (Json.bool true) | .error e => .error e
  (wrapAdminError PyError.roleBindingError "Failed to remove role binding: " res', reqs)

/-- `AdminHelper.list_role_bindings`: GET `{prefix}/bindings` with optional
filters; a list response is returned as is, a dict response is read at
`"bindings"` (default `[]`); failures are wrapped in `RoleBindingError`. -/
def AdminHelper.list_role_bindings (h : AdminHelper)
    (user_id role_id : Option String) (net : HttpOutcome) :
    Except PyError Json × List HttpRequest :=
  let params := optParam "user_id" user_id ++ optParam "role_id" role_id
  let (res, reqs) :=
    h._make_request "GET" ( h.endpointPrefix ++ "/bindings") none params net
  let res' :=
    match res with
    | .ok (.arr elems) => .ok (.arr elems)
    | .ok other => other.getd "bindings" (.arr [])
    | .error e => .error e
  (wrapAdminError PyError.roleBindingError "Failed to list role bindings: " res', reqs)

/-- `AdminHelper.create_scope`: POST `{prefix}/scopes` with body
`{name, description?, resources?}`; failures are wrapped in `ScopeError`. -/
def AdminHelper.create_scope (h : AdminHelper) (name : String)
    (description : Option String) (resources : Option (List String))
    (net : HttpOutcome) : Except PyError Json × List HttpRequest :=
  let data : Json := .obj
    ([("name", .str name)]
      ++ optStrField "description" description
      ++ optListField "resources" resources)
  let (res, reqs) :=
    h._make_request "POST" ( h.endpointPrefix ++ "/scopes") (some data) [] net
  (wrapAdminError PyError.scopeError "Failed to create scope: " res, reqs)

/-- `AdminHelper.list_scopes`: GET `{prefix}/scopes`; a list response is
returned as is, a dict response is read at `"scopes"` (default `[]`);
failures are wrapped in `ScopeError`. -/
def AdminHelper.list_scopes (h : AdminHelper) (net : HttpOutcome) :
    Except PyError Json × List HttpRequest :=
  let (res, reqs) := h._make_request "GET" ( h.endpointPrefix ++ "/scopes") none [] net
  let res' :=
    match res with
    | .ok (.arr elems) => .ok (.arr elems)
    | .ok other => other.getd "scopes" (.arr [])
    | .error e => .error e
  (wrapAdminError PyError.scopeError "Failed to list scopes: " res', reqs)

/-! ## Theorems -/

/-- C8: for every client state and token argument, `set_token` replaces the
held token with its argument, sets the cached claims to the empty state,
performs no network call (issues no HTTP request), and leaves the base URL,
user-flow base URL, timeout, legacy-proxy flag and endpoint type
unchanged. -/
theorem set_token_replaces_token_clears_claims_frames_rest
    (c : AuthSecClient) (t : String) :
    ((c.set_token t).1.token = some t)
    ∧ ((c.set_token t).1._claims_cache = none)
    ∧ ((c.set_token t).1.base_url = c.base_url)
    ∧ ((c.set_token t).1.uflow_base_url = c.uflow_base_url)
    ∧ ((c.set_token t).1.timeout = c.timeout)
    ∧ ((c.set_token t).1.legacy_proxy_mode = c.legacy_proxy_mode)
    ∧ ((c.set_token t).1.endpoint_type = c.endpoint_type)
    ∧ ((c.set_token t).2 = []) :=
  ⟨rfl, rfl, rfl, rfl, rfl, rfl, rfl, rfl⟩

/-- C3 as stated is false: with legacy-proxy mode enabled, `_get_path`
rewrites even an already-resolved user-flow path under `/authmgr`, so the
result is not the path unchanged. -/
theorem get_path_uflow_legacy_counterexample :
    (AuthSecClient._get_path
        ⟨"http://h", "http://h", 5, true, "enduser", none, none⟩
        "/uflow/user/permissions" false
      = "/authmgr/uflow/user/permissions")
    ∧ (AuthSecClient._get_path
        ⟨"http://h", "http://h", 5, true, "enduser", none, none⟩
        "/uflow/user/permissions" false
      ≠ "/uflow/user/permissions") :=
  ⟨rfl, by decide⟩

/-- C3 amended: when legacy-proxy mode is off, `_get_path` returns every
path beginning with `/uflow/` unchanged, for every configured endpoint type
and per-call `use_admin` override. -/
theorem get_path_uflow_passthrough (c : AuthSecClient) (p : String)
    (use_admin : Bool) (hl : c.legacy_proxy_mode = false)
    (hp : pyStartsWith p "/uflow/" = true) :
    c._get_path p use_admin = p := by
  unfold AuthSecClient._get_path
  rw [hl]
  simp [hp]

/-- Witness for `get_path_uflow_passthrough` at a concrete client and
path. -/
theorem get_path_uflow_passthrough_witness :
    AuthSecClient._get_path
      ⟨"http://h", "http://h", 5, false, "admin", none, none⟩
      "/uflow/user/rbac/roles" true
      = "/uflow/user/rbac/roles" :=
  get_path_uflow_passthrough _ _ _ rfl (by decide)

/-- C4: on a falsy token (`None` or the empty string), `assign_role` and
`remove_role_binding` raise `RuntimeError` and issue no HTTP request, for
all argument values and both settings of the `admin` flag. -/
theorem assign_remove_raise_without_token (c : AuthSecClient)
    (user_id role_id binding_id : String)
    (scope_type scope_id : Option String) (conditions : Option Json)
    (admin : Bool) (net : HttpOutcome)
    (h : c.token = none ∨ c.token = some "") :
    (c.assign_role user_id role_id scope_type scope_id conditions admin net
      = (.error (.runtimeError "No token set. Call login() or exchange_oidc() first."), []))
    ∧ (c.remove_role_binding binding_id admin net
      = (.error (.runtimeError "No token set. Call login() or exchange_oidc() first."), [])) := by
  rcases h with h | h <;>
    simp [AuthSecClient.assign_role, AuthSecClient.remove_role_binding, h]

/-- Witness for `assign_remove_raise_without_token`: a freshly constructed
client with no token. -/
theorem assign_remove_raise_without_token_witness :
    (AuthSecClient.assign_role
        ⟨"http://h", "http://h", 5, false, "enduser", none, none⟩
        "u1" "r1" none none none true (.ok none)
      = (.error (.runtimeError "No token set. Call login() or exchange_oidc() first."), []))
    ∧ (AuthSecClient.remove_role_binding
        ⟨"http://h", "http://h", 5, false, "enduser", none, none⟩
        "b1" true (.ok none)
      = (.error (.runtimeError "No token set. Call login() or exchange_oidc() first."), [])) :=
  assign_remove_raise_without_token _ "u1" "r1" "b1" none none none true (.ok none)
    (Or.inl rfl)

/-- C2 as stated is false: `AdminHelper.__init__` performs no case
normalization, so constructing with `endpoint_type="ADMIN"` raises
`ValueError` instead of succeeding. -/
theorem adminhelper_uppercase_endpoint_counterexample :
    AdminHelper.init "t" "https://dev.api.authsec.dev" 10 false "ADMIN"
      = .error (.valueError "endpoint_type must be admin or enduser, got ADMIN") :=
  rfl

/-- C2 amended: `AuthSecClient` rejects any endpoint type whose lowercased
form is outside {admin, enduser} and accepts `"ADMIN"` as `admin`
(case-insensitive normalization); `AdminHelper` rejects any endpoint type
outside the exact set {admin, enduser} with `ValueError` and, lacking
normalization, rejects `"ADMIN"` too. -/
theorem endpoint_type_validation_amended (b : String) (tm : Rat) (lm : Bool)
    (ub tok : Option String) (et t bu : String) (tmo : Int) (dbg : Bool)
    (et2 : String)
    (h1 : (["admin", "enduser"].contains (pyLower et)) = false)
    (h2 : (["admin", "enduser"].contains et2) = false) :
    (AuthSecClient.init b tm lm ub tok et
      = .error (.valueError "endpoint_type must be admin or enduser"))
    ∧ ((AuthSecClient.init b tm lm ub tok "ADMIN").map (·.endpoint_type)
      = .ok "admin")
    ∧ (AdminHelper.init t bu tmo dbg et2
      = .error (.valueError ("endpoint_type must be admin or enduser, got " ++ et2)))
    ∧ ((AdminHelper.init t bu tmo dbg "ADMIN").isOk = false) := by
  refine ⟨?_, rfl, ?_, rfl⟩
  · simp at h1
    simp [AuthSecClient.init, h1.1, h1.2]
  · simp at h2
    simp [AdminHelper.init, h2.1, h2.2]

/-- Witness for `endpoint_type_validation_amended` at concrete rejected
endpoint types. -/
theorem endpoint_type_validation_amended_witness :
    (AuthSecClient.init "http://h" 5 false none none "superuser"
      = .error (.valueError "endpoint_type must be admin or enduser"))
    ∧ ((AuthSecClient.init "http://h" 5 false none none "ADMIN").map (·.endpoint_type)
      = .ok "admin")
    ∧ (AdminHelper.init "t" "http://h" 10 false "superuser"
      = .error (.valueError ("endpoint_type must be admin or enduser, got " ++ "superuser")))
    ∧ ((AdminHelper.init "t" "http://h" 10 false "ADMIN").isOk = false) :=
  endpoint_type_validation_amended "http://h" 5 false none none "superuser"
    "t" "http://h" 10 false "superuser" (by decide) (by decide)

/-- C1: in every client configuration (any token state, endpoint type and
legacy-proxy mode), `check_permission`, `check_permission_scoped` and
`list_permissions` return `False` (respectively the empty list) rather than
raising, both when no token is set (falsy token) and when the transport
call fails. -/
theorem check_ops_deny_safe (c : AuthSecClient)
    (resource action scope_type scope_id : String) (net : HttpOutcome)
    (msg : String) :
    ((c.token = none ∨ c.token = some "") →
        ((c.check_permission resource action net).1 = .ok (.bool false))
      ∧ ((c.check_permission_scoped resource action scope_type scope_id net).1
          = .ok (.bool false))
      ∧ ((c.list_permissions net).1 = .ok (.arr [])))
    ∧ (net = .fail msg →
        ((c.check_permission resource action net).1 = .ok (.bool false))
      ∧ ((c.check_permission_scoped resource action scope_type scope_id net).1
          = .ok (.bool false))
      ∧ ((c.list_permissions net).1 = .ok (.arr []))) := by
  constructor
  · rintro (h | h) <;>
      simp [AuthSecClient.check_permission, AuthSecClient.check_permission_scoped,
        AuthSecClient.list_permissions, h]
  · rintro rfl
    cases hc : c.token with
    | none =>
      simp [AuthSecClient.check_permission, AuthSecClient.check_permission_scoped,
        AuthSecClient.list_permissions, hc]
    | some t =>
      by_cases ht : t = "" <;>
        simp [AuthSecClient.check_permission, AuthSecClient.check_permission_scoped,
          AuthSecClient.list_permissions, hc, ht]

/-- Witness for `check_ops_deny_safe`: a tokenless client, and a client
with a token whose transport call fails. -/
theorem check_ops_deny_safe_witness :
    ((AuthSecClient.check_permission
        ⟨"http://h", "http://h", 5, false, "enduser", none, none⟩
        "document" "read" (.ok none)).1 = .ok (.bool false))
    ∧ ((AuthSecClient.check_permission_scoped
        ⟨"http://h", "http://h", 5, true, "admin", some "tk", none⟩
        "document" "read" "project" "P1" (.fail "timeout")).1 = .ok (.bool false))
    ∧ ((AuthSecClient.list_permissions
        ⟨"http://h", "http://h", 5, true, "admin", some "tk", none⟩
        (.fail "timeout")).1 = .ok (.arr [])) :=
  ⟨((check_ops_deny_safe ⟨"http://h", "http://h", 5, false, "enduser", none, none⟩
      "document" "read" "project" "P1" (.ok none) "x").1 (Or.inl rfl)).1,
   ((check_ops_deny_safe ⟨"http://h", "http://h", 5, true, "admin", some "tk", none⟩
      "document" "read" "project" "P1" (.fail "timeout") "timeout").2 rfl).2.1,
   ((check_ops_deny_safe ⟨"http://h", "http://h", 5, true, "admin", some "tk", none⟩
      "document" "read" "project" "P1" (.fail "timeout") "timeout").2 rfl).2.2⟩

/-- C7: when the filtered list request underlying `get_role` yields the
empty list, `get_role` raises `RoleBindingError` rather than returning a
null result; when the list is non-empty, it returns the first element. -/
theorem get_role_empty_raises_nonempty_first (h : AdminHelper)
    (role_id : String) (x : Json) (xs : List Json) :
    ((h.get_role role_id (.ok (some (.arr [])))).1
      = .error (.roleBindingError ("Failed to get role: Role not found: " ++ role_id)))
    ∧ ((h.get_role role_id (.ok (some (.arr (x :: xs))))).1 = .ok x) := by
  refine ⟨?_, ?_⟩ <;>
    simp [AdminHelper.get_role, AdminHelper._make_request, wrapAdminError,
      PyError.isAdminSDKError, PyError.message]
  rw [← String.append_assoc]
  rfl

/-- C10: in the generic authenticated passthrough `request`, an input that
starts with `http://` or `https://` has the configured base URL prepended
(base, a slash, then the input with leading slashes stripped), while every
other input is used verbatim as the request URL. -/
theorem request_url_building (c : AuthSecClient) (tk method p : String)
    (hs : List (String × String)) (net : HttpOutcome)
    (htk : c.token = some tk) :
    ((pyStartsWith p "http://" || pyStartsWith p "https://") = true →
      (c.request method p hs net).2.map (·.url)
        = [rstripSlash c.base_url ++ "/" ++ lstripSlash p])
    ∧ ((pyStartsWith p "http://" || pyStartsWith p "https://") = false →
      (c.request method p hs net).2.map (·.url) = [p]) := by
  constructor <;> intro hcond <;> simp [AuthSecClient.request, htk, hcond]

/-- Witness for `request_url_building`: an absolute URL gains the base
prefix; a relative path is used verbatim. -/
theorem request_url_building_witness :
    ((AuthSecClient.request
        ⟨"http://h/", "http://h", 5, false, "enduser", some "tk", none⟩
        "GET" "https://app.example.com/v1/items" [] (.ok none)).2.map (·.url)
      = [rstripSlash "http://h/" ++ "/" ++ lstripSlash "https://app.example.com/v1/items"])
    ∧ ((AuthSecClient.request
        ⟨"http://h/", "http://h", 5, false, "enduser", some "tk", none⟩
        "GET" "v1/items" [] (.ok none)).2.map (·.url) = ["v1/items"]) :=
  ⟨(request_url_building ⟨"http://h/", "http://h", 5, false, "enduser", some "tk", none⟩
      "tk" "GET" "https://app.example.com/v1/items" [] (.ok none) rfl).1 (by decide),
   (request_url_building ⟨"http://h/", "http://h", 5, false, "enduser", some "tk", none⟩
      "tk" "GET" "v1/items" [] (.ok none) rfl).2 (by decide)⟩

/-- C6 as stated is false: the end-user facade defines no login operation;
the class body of `AuthSecClient` has no `login` method (removed per the
comment at src/authsec/minimal.py lines 280-282). -/
theorem login_absent_counterexample : "login" ∉ AuthSecClient.methods := by
  decide

/-- C6 amended: the facade provides no login operation; a token is supplied
at construction or obtained via `exchange_oidc`, which POSTs to
`{base_url}/authmgr/oidcToken` and, on success, stores the returned
`access_token` in the client and clears any cached claims; it raises
`KeyError` when the response lacks the token field. -/
theorem exchange_oidc_token_lifecycle (c : AuthSecClient) (ot tok : String)
    (fields : List (String × Json)) :
    ("login" ∉ AuthSecClient.methods)
    ∧ ((c.exchange_oidc ot (.ok (some (.obj fields)))).2.map (·.url)
        = [c.base_url ++ "/authmgr/oidcToken"])
    ∧ (lookupField fields "access_token" = some (.str tok) →
        (c.exchange_oidc ot (.ok (some (.obj fields)))).1
          = .ok (tok, { c with token := some tok, _claims_cache := none }))
    ∧ (lookupField fields "access_token" = none →
        (c.exchange_oidc ot (.ok (some (.obj fields)))).1
          = .error (.keyError "access_token")) := by
  refine ⟨by decide, rfl, ?_, ?_⟩ <;> intro hf <;>
    simp [AuthSecClient.exchange_oidc, AuthSecClient.set_token, hf]

/-- Witness for `exchange_oidc_token_lifecycle` on a response carrying the
token and a response lacking it. -/
theorem exchange_oidc_token_lifecycle_witness :
    ((AuthSecClient.exchange_oidc
        ⟨"http://h", "http://h", 5, false, "enduser", none, some (.obj [])⟩
        "oidc-tok" (.ok (some (.obj [("access_token", .str "app-tok")])))).1
      = .ok ("app-tok",
          { base_url := "http://h", uflow_base_url := "http://h", timeout := 5,
            legacy_proxy_mode := false, endpoint_type := "enduser",
            token := some "app-tok", _claims_cache := none }))
    ∧ ((AuthSecClient.exchange_oidc
        ⟨"http://h", "http://h", 5, false, "enduser", none, none⟩
        "oidc-tok" (.ok (some (.obj [("error", .str "denied")])))).1
      = .error (.keyError "access_token")) :=
  ⟨((exchange_oidc_token_lifecycle
      ⟨"http://h", "http://h", 5, false, "enduser", none, some (.obj [])⟩
      "oidc-tok" "app-tok" [("access_token", .str "app-tok")]).2.2.1 rfl),
   ((exchange_oidc_token_lifecycle
      ⟨"http://h", "http://h", 5, false, "enduser", none, none⟩
      "oidc-tok" "app-tok" [("error", .str "denied")]).2.2.2 rfl)⟩

/-- C9 as stated is false: when both scope components are omitted, the
request payload carries no `scope` field at all — the components are not
sent as `"*"`.  Shown for `assign_role` and `create_role_binding` at
concrete inputs, together with the absence of the `scope` key in the sent
body. -/
theorem scope_default_counterexample :
    ((AuthSecClient.assign_role
        ⟨"http://h", "http://h", 5, false, "enduser", some "tk", none⟩
        "u1" "r1" none none none false (.ok none)).2.map (·.body)
      = [some (.obj [("user_id", .str "u1"), ("role_id", .str "r1")])])
    ∧ (lookupField [("user_id", Json.str "u1"), ("role_id", Json.str "r1")] "scope"
      = none)
    ∧ ((AdminHelper.create_role_binding
        ⟨"tk", "http://h", 10, false, "admin", "/uflow/admin",
         [("Authorization", "Bearer tk"), ("Content-Type", "application/json")]⟩
        "u1" "r1" none none none (.ok none)).2.map (·.body)
      = [some (.obj [("user_id", .str "u1"), ("role_id", .str "r1")])]) :=
  ⟨rfl, rfl, rfl⟩

/-- C9 amended: in `assign_role` and `create_role_binding`, the payload
carries a `scope` object exactly when at least one scope component is
truthy; in that case each omitted (or falsy) component is sent as `"*"`;
when both are omitted the payload has no scope field and the server treats
the binding as tenant-wide. -/
theorem scope_wildcard_defaults (c : AuthSecClient) (h : AdminHelper)
    (user_id role_id tk : String) (st si : Option String) (net : HttpOutcome)
    (htk : c.token = some tk) (hne : ¬tk = "") :
    ((truthyOptStr st || truthyOptStr si) = true →
      ((c.assign_role user_id role_id st si none false net).2.map (·.body)
        = [some (.obj [("user_id", .str user_id), ("role_id", .str role_id),
            ("scope", .obj [("type", .str (orStar st)), ("id", .str (orStar si))])])])
      ∧ ((h.create_role_binding user_id role_id st si none net).2.map (·.body)
        = [some (.obj [("user_id", .str user_id), ("role_id", .str role_id),
            ("scope", .obj [("type", .str (orStar st)), ("id", .str (orStar si))])])]))
    ∧ ((truthyOptStr st || truthyOptStr si) = false →
      ((c.assign_role user_id role_id st si none false net).2.map (·.body)
        = [some (.obj [("user_id", .str user_id), ("role_id", .str role_id)])])
      ∧ ((h.create_role_binding user_id role_id st si none net).2.map (·.body)
        = [some (.obj [("user_id", .str user_id), ("role_id", .str role_id)])])) := by
  constructor <;> intro hcond <;>
    exact ⟨by simp [AuthSecClient.assign_role, htk, hne, hcond],
           by simp [AdminHelper.create_role_binding, AdminHelper._make_request, hcond]⟩

/-- Witness for `scope_wildcard_defaults`: one component provided (the
other defaults to the wildcard) and both components omitted (no scope
field). -/
theorem scope_wildcard_defaults_witness :
    ((AuthSecClient.assign_role
        ⟨"http://h", "http://h", 5, false, "enduser", some "tk", none⟩
        "u1" "r1" (some "project") none none false (.ok none)).2.map (·.body)
      = [some (.obj [("user_id", .str "u1"), ("role_id", .str "r1"),
          ("scope", .obj [("type", .str "project"), ("id", .str "*")])])])
    ∧ ((AdminHelper.create_role_binding
        ⟨"tk", "http://h", 10, false, "admin", "/uflow/admin",
         [("Authorization", "Bearer tk"), ("Content-Type", "application/json")]⟩
        "u1" "r1" none none none (.ok none)).2.map (·.body)
      = [some (.obj [("user_id", .str "u1"), ("role_id", .str "r1")])]) :=
  ⟨((scope_wildcard_defaults
      ⟨"http://h", "http://h", 5, false, "enduser", some "tk", none⟩
      ⟨"tk", "http://h", 10, false, "admin", "/uflow/admin",
       [("Authorization", "Bearer tk"), ("Content-Type", "application/json")]⟩
      "u1" "r1" "tk" (some "project") none (.ok none) rfl (by decide)).1 (by decide)).1,
   ((scope_wildcard_defaults
      ⟨"http://h", "http://h", 5, false, "enduser", some "tk", none⟩
      ⟨"tk", "http://h", 10, false, "admin", "/uflow/admin",
       [("Authorization", "Bearer tk"), ("Content-Type", "application/json")]⟩
      "u1" "r1" "tk" none none (.ok none) rfl (by decide)).2 (by decide)).2⟩

/-- C5: an `AdminHelper` constructed with endpoint type `admin` issues
every RBAC request — permission, role, binding and scope operations alike —
under the fixed prefix `/uflow/admin`; in particular
`create_permission("document","read")` issues a POST to
`{base_url}/uflow/admin/permissions` with body
`{"resource":"document","action":"read"}`.  Constructed with `enduser`, the
same operations go under `/uflow/user/rbac`.  The prefix is chosen by the
constructor and no operation alters the helper, so it is fixed for the
instance's lifetime. -/
theorem admin_helper_prefix_routing (t b : String) (tm : Int) (dbg : Bool)
    (net : HttpOutcome) (r a nm sn role_id binding_id user_id rid : String)
    (od f1 f2 f3 ost osi : Option String) (ol ol2 : Option (List String))
    (oc : Option Json) :
    ((AdminHelper.init t b tm dbg "admin").map
        (fun h => (h.create_permission r a od net).2.map (·.url))
      = .ok [rstripSlash b ++ "/uflow/admin/permissions"])
    ∧ ((AdminHelper.init t b tm dbg "admin").map
        (fun h => (h.list_permissions f1 net).2.map (·.url))
      = .ok [rstripSlash b ++ "/uflow/admin/permissions"])
    ∧ ((AdminHelper.init t b tm dbg "admin").map
        (fun h => (h.create_role nm od ol ol2 net).2.map (·.url))
      = .ok [rstripSlash b ++ "/uflow/admin/roles"])
    ∧ ((AdminHelper.init t b tm dbg "admin").map
        (fun h => (h.list_roles f1 f2 f3 net).2.map (·.url))
      = .ok [rstripSlash b ++ "/uflow/admin/roles"])
    ∧ ((AdminHelper.init t b tm dbg "admin").map
        (fun h => (h.get_role role_id net).2.map (·.url))
      = .ok [rstripSlash b ++ "/uflow/admin/roles"])
    ∧ ((AdminHelper.init t b tm dbg "admin").map
        (fun h => (h.update_role role_id od f1 ol ol2 net).2.map (·.url))
      = .ok [rstripSlash b ++ ("/uflow/admin/roles/" ++ role_id)])
    ∧ ((AdminHelper.init t b tm dbg "admin").map
        (fun h => (h.delete_role role_id net).2.map (·.url))
      = .ok [rstripSlash b ++ ("/uflow/admin/roles/" ++ role_id)])
    ∧ ((AdminHelper.init t b tm dbg "admin").map
        (fun h => (h.create_role_binding user_id rid ost osi oc net).2.map (·.url))
      = .ok [rstripSlash b ++ "/uflow/admin/bindings"])
    ∧ ((AdminHelper.init t b tm dbg "admin").map
        (fun h => (h.remove_role_binding binding_id net).2.map (·.url))
      = .ok [rstripSlash b ++ ("/uflow/admin/bindings/" ++ binding_id)])
    ∧ ((AdminHelper.init t b tm dbg "admin").map
        (fun h => (h.list_role_bindings f1 f2 net).2.map (·.url))
      = .ok [rstripSlash b ++ "/uflow/admin/bindings"])
    ∧ ((AdminHelper.init t b tm dbg "admin").map
        (fun h => (h.create_scope sn od ol net).2.map (·.url))
      = .ok [rstripSlash b ++ "/uflow/admin/scopes"])
    ∧ ((AdminHelper.init t b tm dbg "admin").map
        (fun h => (h.list_scopes net).2.map (·.url))
      = .ok [rstripSlash b ++ "/uflow/admin/scopes"])
    ∧ ((AdminHelper.init t b tm dbg "admin").map
        (fun h => (h.create_permission "document" "read" none net).2)
      = .ok [{ method := "POST"
               url := rstripSlash b ++ "/uflow/admin/permissions"
               body := some (.obj [("resource", .str "document"),
                                   ("action", .str "read")])
               params := []
               headers := [("Authorization", "Bearer " ++ t),
                           ("Content-Type", "application/json")] }])
    ∧ ((AdminHelper.init t b tm dbg "enduser").map
        (fun h => (h.create_permission r a od net).2.map (·.url))
      = .ok [rstripSlash b ++ "/uflow/user/rbac/permissions"])
    ∧ ((AdminHelper.init t b tm dbg "enduser").map
        (fun h => (h.list_permissions f1 net).2.map (·.url))
      = .ok [rstripSlash b ++ "/uflow/user/rbac/permissions"])
    ∧ ((AdminHelper.init t b tm dbg "enduser").map
        (fun h => (h.create_role nm od ol ol2 net).2.map (·.url))
      = .ok [rstripSlash b ++ "/uflow/user/rbac/roles"])
    ∧ ((AdminHelper.init t b tm dbg "enduser").map
        (fun h => (h.list_roles f1 f2 f3 net).2.map (·.url))
      = .ok [rstripSlash b ++ "/uflow/user/rbac/roles"])
    ∧ ((AdminHelper.init t b tm dbg "enduser").map
        (fun h => (h.get_role role_id net).2.map (·.url))
      = .ok [rstripSlash b ++ "/uflow/user/rbac/roles"])
    ∧ ((AdminHelper.init t b tm dbg "enduser").map
        (fun h => (h.update_role role_id od f1 ol ol2 net).2.map (·.url))
      = .ok [rstripSlash b ++ ("/uflow/user/rbac/roles/" ++ role_id)])
    ∧ ((AdminHelper.init t b tm dbg "enduser").map
        (fun h => (h.delete_role role_id net).2.map (·.url))
      = .ok [rstripSlash b ++ ("/uflow/user/rbac/roles/" ++ role_id)])
    ∧ ((AdminHelper.init t b tm dbg "enduser").map
        (fun h => (h.create_role_binding user_id rid ost osi oc net).2.map (·.url))
      = .ok [rstripSlash b ++ "/uflow/user/rbac/bindings"])
    ∧ ((AdminHelper.init t b tm dbg "enduser").map
        (fun h => (h.remove_role_binding binding_id net).2.map (·.url))
      = .ok [rstripSlash b ++ ("/uflow/user/rbac/bindings/" ++ binding_id)])
    ∧ ((AdminHelper.init t b tm dbg "enduser").map
        (fun h => (h.list_role_bindings f1 f2 net).2.map (·.url))
      = .ok [rstripSlash b ++ "/uflow/user/rbac/bindings"])
    ∧ ((AdminHelper.init t b tm dbg "enduser").map
        (fun h => (h.create_scope sn od ol net).2.map (·.url))
      = .ok [rstripSlash b ++ "/uflow/user/rbac/scopes"])
    ∧ ((AdminHelper.init t b tm dbg "enduser").map
        (fun h => (h.list_scopes net).2.map (·.url))
      = .ok [rstripSlash b ++ "/uflow/user/rbac/scopes"]) :=
  ⟨rfl, rfl, rfl, rfl, rfl, rfl, rfl, rfl, rfl, rfl, rfl, rfl, rfl,
   rfl, rfl, rfl, rfl, rfl, rfl, rfl, rfl, rfl, rfl, rfl, rfl⟩

end Authsec
